import Mathlib

/-!
# install-maya: the provisioning orchestrator

A shallow embedding of `command/install_maya.go` (type `InstallMayaCommand`
and its methods) together with the properties of its step sequence.

Conventions of the embedding

* Go `string` values are Lean `String`s; `len(s) == 0` is rendered as
  `s.length = 0` (a string has zero bytes exactly when it has zero characters).
* Go `int` values (exit statuses, `server_count`) are `Int`; no operation of
  this file can overflow (`len(..) + 1` of an in-memory slice).
* The outside world is an `Env`: for every history of commands already
  started and every command it gives the exit status and the standard output
  of the process.  All effects are recorded, in order, in one log of `Event`s.
* The constants of the package (`BootstrapScript`, `MayaScriptsPath`, ...) and
  `generalOptionsUsage()` live in other files of the package; they are the
  fields of `Consts`, a parameter of every step.
* Flag parsing (`Meta.FlagSet`, `flag.FlagSet.Parse`) lives outside this file;
  `Run` takes the parser as a parameter returning a `FlagOutcome`.
-/

namespace Maya

/-! ## Go library functions used by the source -/

/-- Go `unicode.IsSpace`: the Latin-1 spaces `\t \n \v \f \r`, space, U+0085,
U+00A0, and the other code points with the Unicode White_Space property. -/
def isSpace (r : Char) : Bool :=
  r.toNat = 0x09 || r.toNat = 0x0A || r.toNat = 0x0B || r.toNat = 0x0C ||
  r.toNat = 0x0D || r.toNat = 0x20 || r.toNat = 0x85 || r.toNat = 0xA0 ||
  r.toNat = 0x1680 || (0x2000 ≤ r.toNat && r.toNat ≤ 0x200A) ||
  r.toNat = 0x2028 || r.toNat = 0x2029 || r.toNat = 0x202F ||
  r.toNat = 0x205F || r.toNat = 0x3000

/-- Characters of a string with leading and trailing white space removed. -/
def trimChars (l : List Char) : List Char :=
  ((l.dropWhile isSpace).reverse.dropWhile isSpace).reverse

/-- Go `strings.TrimSpace`: the string without its leading and trailing
white space (`unicode.IsSpace`). -/
def TrimSpace (s : String) : String := ⟨trimChars s.data⟩

/-- Pieces of a character list between occurrences of `sep`; there is always
one piece more than there are separators. -/
def splitChars (sep : Char) : List Char → List (List Char)
  | [] => [[]]
  | c :: cs =>
    if c = sep then [] :: splitChars sep cs
    else
      match splitChars sep cs with
      | [] => [[c]]
      | p :: ps => (c :: p) :: ps

/-- Go `strings.Split(s, sep)` for a one-character separator: all substrings
of `s` between separators, empty ones included. -/
def Split (s : String) (sep : Char) : List String :=
  (splitChars sep s.data).map String.mk

/-! ## Data model -/

/-- Go `exec.Cmd` as built by `exec.Command(name, args...)`. -/
structure ExecCmd where
  name : String
  args : List String
deriving DecidableEq, Repr

/-- Go `exec.Command`. -/
def Command (name : String) (args : List String) : ExecCmd := ⟨name, args⟩

/-- The receiver of the methods, `InstallMayaCommand`.  The display field `M`
is represented by the `output`/`error` events of the log. -/
structure InstallMayaCommand where
  Cmd : Option ExecCmd
  member_ips : String
  server_count : Int
  self_ip : String
deriving DecidableEq, Repr

/-- Package constants defined outside `install_maya.go`. -/
structure Consts where
  BootstrapScriptPath : String
  BootstrapScript : String
  MayaScriptsPath : String
  InstallConsulScript : String
  GetPrivateIPScript : String
  SetConsulAsServerScript : String
  StartConsulServerScript : String
  generalOptionsUsage : String

/-- What one external process does: its exit status and its output lines. -/
structure ProcResult where
  status : Int
  stdout : List String

/-- The outside world: the result of a command given the commands started
before it. -/
abbrev Env := List ExecCmd → ExecCmd → ProcResult

/-- Observable effects, in the order they happen.  `exec` is the start of an
external process and records the value `server_count` holds at that moment;
`console` is process output streamed to the console by `execute`; `output`
and `error` are calls of `Ui.Output` and `Ui.Error`. -/
inductive Event where
  | exec (cmd : ExecCmd) (server_count : Int)
  | console (lines : List String)
  | output (msg : String)
  | error (msg : String)
deriving DecidableEq, Repr

/-- The command value together with the log of effects so far. -/
structure Sys where
  c : InstallMayaCommand
  log : List Event
deriving DecidableEq, Repr

/-- Commands started so far, in order. -/
def execsOf (log : List Event) : List ExecCmd :=
  log.filterMap fun e =>
    match e with
    | .exec cmd _ => some cmd
    | _ => none

/-- Process starts with the `server_count` each of them saw. -/
def startsOf (log : List Event) : List (ExecCmd × Int) :=
  log.filterMap fun e =>
    match e with
    | .exec cmd n => some (cmd, n)
    | _ => none

/-- Messages passed to `Ui.Output`, in order. -/
def outputsOf (log : List Event) : List String :=
  log.filterMap fun e =>
    match e with
    | .output m => some m
    | _ => none

/-- Messages passed to `Ui.Error`, in order. -/
def errorsOf (log : List Event) : List String :=
  log.filterMap fun e =>
    match e with
    | .error m => some m
    | _ => none

/-- Go `c.M.Ui.Output(msg)`. -/
def uiOutput (s : Sys) (msg : String) : Sys :=
  { s with log := s.log ++ [Event.output msg] }

/-- Go `c.M.Ui.Error(msg)`. -/
def uiError (s : Sys) (msg : String) : Sys :=
  { s with log := s.log ++ [Event.error msg] }

/-- Assignment `c.Cmd = cmd`. -/
def setCmd (s : Sys) (cmd : ExecCmd) : Sys :=
  { s with c := { s.c with Cmd := some cmd } }

/-- Modelled from the spec: `execute(cmd, ui, capturer...)`, defined outside
`install_maya.go`.  It runs the program to completion, writes its output to
the console, stores the first output line into the destination when one was
supplied, and returns the exit status.  The only destination this file ever
passes is `&c.self_ip`, selected by `capture`. -/
def execute (env : Env) (cmd : ExecCmd) (s : Sys) (capture : Bool) : Int × Sys :=
  let r := env (execsOf s.log) cmd
  let log := s.log ++ [Event.exec cmd s.c.server_count, Event.console r.stdout]
  let c :=
    match capture, r.stdout with
    | true, line :: _ => { s.c with self_ip := line }
    | _, _ => s.c
  (r.status, { c := c, log := log })

/-! ## The methods of `InstallMayaCommand` -/

/-- The literal part of the help text before `generalOptionsUsage()`. -/
def helpHead : String :=
  "\nUsage: maya install-maya\n\n  Installs maya server on this machine. In other words, the machine\n  where this command is run will become a maya server.\n\nGeneral Options:\n\n  "

/-- The literal part of the help text after `generalOptionsUsage()`. -/
def helpTail : String :=
  "\n\nInstall Maya Options:\n\n  -member-ips=<IP Address(es) of all server members>\n    Command separated list of IP addresses of all server members\n    participating in the cluster.\n    \n    NOTE: Do not include the IP address of this local machine i.e.\n    the machine where this command is being run.\n\n  -self-ip=<IP Address>\n    The IP Address of this local machine i.e. the machine where\n    this command is being run.\n"

/-- Method `Help`. -/
def Help (k : Consts) : String :=
  TrimSpace (helpHead ++ k.generalOptionsUsage ++ helpTail)

/-- Method `Synopsis`. -/
def Synopsis : String := "Installs maya server on this machine."

/-- The command of `installConsul`. -/
def installCmd (k : Consts) : ExecCmd := Command "sh" [k.InstallConsulScript]

/-- The command of `verifyBootstrap`. -/
def verifyCmd (k : Consts) : ExecCmd := Command "ls" [k.MayaScriptsPath]

/-- Method `installConsul`. -/
def installConsul (k : Consts) (env : Env) (s : Sys) : Int × Sys :=
  let r := execute env (installCmd k) (setCmd s (installCmd k)) false
  if r.1 ≠ 0 then (r.1, uiError r.2 "Install failed: Error installing consul")
  else (r.1, r.2)

/-- Method `verifyBootstrap`. -/
def verifyBootstrap (k : Consts) (env : Env) (s : Sys) : Int × Sys :=
  let r := execute env (verifyCmd k) (setCmd s (verifyCmd k)) false
  if r.1 ≠ 0 then
    (r.1, uiError r.2 ("Install failed: Bootstrap failed: Missing path: " ++ k.MayaScriptsPath))
  else (r.1, r.2)

/-- The fetch command of `bootTheInstall`. -/
def fetchCmd (k : Consts) : ExecCmd :=
  Command "curl" ["-sSL", k.BootstrapScriptPath, "-o", k.BootstrapScript]

/-- The command of `bootTheInstall` that runs the fetched script. -/
def bootCmd (k : Consts) : ExecCmd := Command "sh" ["./" ++ k.BootstrapScript]

/-- The command of `bootTheInstall` that removes the fetched script. -/
def removeCmd (k : Consts) : ExecCmd := Command "rm" ["-rf", k.BootstrapScript]

/-- Method `bootTheInstall`. -/
def bootTheInstall (k : Consts) (env : Env) (s : Sys) : Int × Sys :=
  let r := execute env (fetchCmd k) (setCmd s (fetchCmd k)) false
  if r.1 ≠ 0 then
    let s1 := uiError r.2 ("Failed to fetch file: " ++ k.BootstrapScriptPath)
    let d := execute env (removeCmd k) (setCmd s1 (removeCmd k)) false
    (r.1, d.2)
  else
    let b := execute env (bootCmd k) (setCmd r.2 (bootCmd k)) false
    let d := execute env (removeCmd k) (setCmd b.2 (removeCmd k)) false
    if b.1 ≠ 0 then (b.1, uiError d.2 "Install failed: Error while bootstraping")
    else (b.1, d.2)

/-- The command of `setIP`. -/
def getIPCmd (k : Consts) : ExecCmd := Command "sh" [k.GetPrivateIPScript]

/-- Method `setIP`. -/
def setIP (k : Consts) (env : Env) (s : Sys) : Int × Sys :=
  if (TrimSpace s.c.self_ip).length = 0 then
    let r := execute env (getIPCmd k) (setCmd s (getIPCmd k)) true
    let s1 :=
      if r.1 ≠ 0 then uiError r.2 "Install failed: Error fetching local IP address"
      else r.2
    (r.1, uiOutput s1 ("Self IP: " ++ s1.c.self_ip))
  else
    (0, uiOutput s ("Self IP: " ++ s.c.self_ip))

/-- Method `setServerCount`, on the command value. -/
def setServerCountC (c : InstallMayaCommand) : InstallMayaCommand :=
  if (TrimSpace c.member_ips).length = 0 then
    { c with server_count := 1 }
  else
    let server_members := Split (TrimSpace c.member_ips) ','
    { c with server_count := (server_members.length : Int) + 1 }

/-- Method `setServerCount`; it has no effect outside the command value. -/
def setServerCount (s : Sys) : Sys := { s with c := setServerCountC s.c }

/-- The command of `setConsulAsServer`. -/
def setRoleCmd (k : Consts) : ExecCmd := Command "sh" [k.SetConsulAsServerScript]

/-- Method `setConsulAsServer`. -/
def setConsulAsServer (k : Consts) (env : Env) (s : Sys) : Int × Sys :=
  let r := execute env (setRoleCmd k) (setCmd s (setRoleCmd k)) false
  if r.1 ≠ 0 then (r.1, uiError r.2 "Install failed: Error setting consul as server")
  else (r.1, r.2)

/-- The command of `startConsul`. -/
def startCmd (k : Consts) : ExecCmd := Command "sh" [k.StartConsulServerScript]

/-- Method `startConsul`.  The source declares a new `runop` in the `if`
statement (`runop := execute(..)`), so the variable that is returned keeps
its initial value 0. -/
def startConsul (k : Consts) (env : Env) (s : Sys) : Int × Sys :=
  let runop : Int := 0
  let r := execute env (startCmd k) (setCmd s (startCmd k)) false
  if r.1 ≠ 0 then (runop, uiError r.2 "Install failed: Systemd failed: Error starting consul")
  else (runop, r.2)

/-- What flag parsing leaves behind: whether `flags.Parse` returned an error,
the values of the two string flags (the default `""` when a flag is absent),
and the remaining positional arguments `flags.Args()`. -/
structure FlagOutcome where
  err : Bool
  member_ips : String
  self_ip : String
  oargs : List String

/-- Method `Run`.  On a parse error the flag set calls `flags.Usage`, which
prints the help text with `Ui.Output`. -/
def Run (k : Consts) (env : Env) (parse : List String → FlagOutcome)
    (args : List String) (s : Sys) : Int × Sys :=
  let f := parse args
  let s0 : Sys := { s with c := { s.c with member_ips := f.member_ips, self_ip := f.self_ip } }
  if f.err then (1, uiOutput s0 (Help k))
  else if f.oargs.length ≠ 0 then (1, uiError s0 (Help k))
  else
    match s0.c.Cmd with
    | some cmd => execute env cmd s0 false
    | none =>
      let r1 := bootTheInstall k env s0
      if r1.1 ≠ 0 then r1 else
      let r2 := verifyBootstrap k env r1.2
      if r2.1 ≠ 0 then r2 else
      let r3 := installConsul k env r2.2
      if r3.1 ≠ 0 then r3 else
      let s4 := setServerCount r3.2
      let r5 := setIP k env s4
      if r5.1 ≠ 0 then r5 else
      let r6 := setConsulAsServer k env r5.2
      if r6.1 ≠ 0 then r6 else
      let r7 := startConsul k env r6.2
      if r7.1 ≠ 0 then r7 else
      r7

/-! ## Sample inputs and vocabulary of the statements -/

/-- Sample values for the package constants. -/
def sampleConsts : Consts where
  BootstrapScriptPath := "https://example.org/bootstrap.sh"
  BootstrapScript := "bootstrap.sh"
  MayaScriptsPath := "/opt/maya/scripts"
  InstallConsulScript := "/opt/maya/scripts/install_consul.sh"
  GetPrivateIPScript := "/opt/maya/scripts/get_private_ip.sh"
  SetConsulAsServerScript := "/opt/maya/scripts/set_consul_as_server.sh"
  StartConsulServerScript := "/opt/maya/scripts/start_consul_server.sh"
  generalOptionsUsage := "-address=<addr>"

/-- A world in which every process exits 0 and prints nothing. -/
def envAllOk : Env := fun _ _ => ⟨0, []⟩

/-- A parser outcome for an argument list without flags and positionals. -/
def parseNone : List String → FlagOutcome := fun _ => ⟨false, "", "", []⟩

/-- A fresh command value: no preset command, nothing derived yet. -/
def freshSys : Sys := ⟨⟨none, "", 0, ""⟩, []⟩

/-- A world in which the IP-discovery script prints an address and exits 3,
and every other process exits 0. -/
def envIPFails : Env := fun _ cmd =>
  if cmd = getIPCmd sampleConsts then ⟨3, ["10.0.0.9"]⟩ else ⟨0, []⟩

/-- A world in which the IP-discovery script prints an address, the removal of
the bootstrap script exits 1, and every other process exits 0. -/
def envIPPrints : Env := fun _ cmd =>
  if cmd = getIPCmd sampleConsts then ⟨0, ["10.0.0.9"]⟩
  else if cmd = removeCmd sampleConsts then ⟨1, []⟩ else ⟨0, []⟩

/-- A world in which the start-service script exits 1 and every other process
exits 0. -/
def envStartFails : Env := fun _ cmd =>
  if cmd = startCmd sampleConsts then ⟨1, []⟩ else ⟨0, []⟩

/-- A world in which the fetch of the bootstrap script exits 22 and every
other process exits 0. -/
def envFetchFails : Env := fun _ cmd =>
  if cmd = fetchCmd sampleConsts then ⟨22, []⟩ else ⟨0, []⟩

/-- A world in which the fetched bootstrap script exits 5, its removal exits
1, and every other process exits 0. -/
def envBootFails : Env := fun _ cmd =>
  if cmd = bootCmd sampleConsts then ⟨5, []⟩
  else if cmd = removeCmd sampleConsts then ⟨1, []⟩ else ⟨0, []⟩

/-- A parser outcome for the argument list `-self-ip=" "`. -/
def parseBlankSelf : List String → FlagOutcome := fun _ => ⟨false, "", " ", []⟩

/-- A parser outcome for the argument list `-member-ips=10.0.0.2,10.0.0.3`. -/
def parseMembers : List String → FlagOutcome := fun _ =>
  ⟨false, "10.0.0.2,10.0.0.3", "", []⟩

/-- A parser outcome for the argument list `-self-ip=10.0.0.9`. -/
def parseSelf : List String → FlagOutcome := fun _ => ⟨false, "", "10.0.0.9", []⟩

/-- A parser outcome for an argument list with the positional `extra`. -/
def parseExtra : List String → FlagOutcome := fun _ => ⟨false, "", "", ["extra"]⟩

/-- The value `setServerCount` gives `server_count` for a peer list. -/
def derivedCount (member_ips : String) : Int :=
  (setServerCountC ⟨none, member_ips, 0, ""⟩).server_count

/-- The value `execute` leaves in a destination that held `old`: the first
output line of the process, or `old` when the process printed nothing. -/
def captured (old : String) (stdout : List String) : String :=
  match stdout with
  | line :: _ => line
  | [] => old

/-- The two events of one `execute`: the start of the process and its output
on the console. -/
def ran (env : Env) (log : List Event) (cmd : ExecCmd) (n : Int) : List Event :=
  [Event.exec cmd n, Event.console (env (execsOf log) cmd).stdout]

/-- A string that is empty or consists only of white space. -/
def isBlank (s : String) : Prop := ∀ ch ∈ s.data, isSpace ch = true

instance (s : String) : Decidable (isBlank s) := by
  unfold isBlank; infer_instance

/-- A world in which no process other than `rm` fails. -/
def OnlyRemovalMayFail (env : Env) : Prop :=
  ∀ h cmd, cmd.name ≠ "rm" → (env h cmd).status = 0

/-- Everything the console receives, line by line and in order: the process
output streamed by `execute` and the messages of `Ui.Output` and `Ui.Error`. -/
def consoleOf : List Event → List String
  | [] => []
  | Event.exec _ _ :: l => consoleOf l
  | Event.console lines :: l => lines ++ consoleOf l
  | Event.output m :: l => m :: consoleOf l
  | Event.error m :: l => m :: consoleOf l

/-- The output lines of the commands `cmds` when they are started one after
the other, `hist` being the commands started before them. -/
def streamed (env : Env) (hist : List ExecCmd) : List ExecCmd → List String
  | [] => []
  | cmd :: cmds => (env hist cmd).stdout ++ streamed env (hist ++ [cmd]) cmds

/-- A world in which every process exits 0, the IP-discovery script prints an
address and the set-server-role script prints a `Self IP:` line of its own. -/
def envEcho : Env := fun _ cmd =>
  if cmd = getIPCmd sampleConsts then ⟨0, ["10.0.0.9"]⟩
  else if cmd = setRoleCmd sampleConsts then ⟨0, ["Self IP: 10.0.0.9"]⟩ else ⟨0, []⟩

/-- From the wording of the spec: the number of comma-separated non-empty
entries of a peer list. -/
def specNonEmptyEntries (peer_ips : String) : Nat :=
  ((Split peer_ips ',').filter fun e => e ≠ "").length

/-! # Theorems

## Basic facts about the log projections -/

@[simp] theorem execsOf_nil : execsOf [] = [] := rfl
@[simp] theorem execsOf_append (a b : List Event) :
    execsOf (a ++ b) = execsOf a ++ execsOf b := by
  simp [execsOf, List.filterMap_append]
@[simp] theorem execsOf_exec (cmd : ExecCmd) (n : Int) (l : List Event) :
    execsOf (Event.exec cmd n :: l) = cmd :: execsOf l := by
  simp [execsOf, List.filterMap_cons]
@[simp] theorem execsOf_console (x : List String) (l : List Event) :
    execsOf (Event.console x :: l) = execsOf l := by
  simp [execsOf, List.filterMap_cons]
@[simp] theorem execsOf_output (m : String) (l : List Event) :
    execsOf (Event.output m :: l) = execsOf l := by
  simp [execsOf, List.filterMap_cons]
@[simp] theorem execsOf_error (m : String) (l : List Event) :
    execsOf (Event.error m :: l) = execsOf l := by
  simp [execsOf, List.filterMap_cons]

@[simp] theorem startsOf_nil : startsOf [] = [] := rfl
@[simp] theorem startsOf_append (a b : List Event) :
    startsOf (a ++ b) = startsOf a ++ startsOf b := by
  simp [startsOf, List.filterMap_append]
@[simp] theorem startsOf_exec (cmd : ExecCmd) (n : Int) (l : List Event) :
    startsOf (Event.exec cmd n :: l) = (cmd, n) :: startsOf l := by
  simp [startsOf, List.filterMap_cons]
@[simp] theorem startsOf_console (x : List String) (l : List Event) :
    startsOf (Event.console x :: l) = startsOf l := by
  simp [startsOf, List.filterMap_cons]
@[simp] theorem startsOf_output (m : String) (l : List Event) :
    startsOf (Event.output m :: l) = startsOf l := by
  simp [startsOf, List.filterMap_cons]
@[simp] theorem startsOf_error (m : String) (l : List Event) :
    startsOf (Event.error m :: l) = startsOf l := by
  simp [startsOf, List.filterMap_cons]

@[simp] theorem outputsOf_nil : outputsOf [] = [] := rfl
@[simp] theorem outputsOf_append (a b : List Event) :
    outputsOf (a ++ b) = outputsOf a ++ outputsOf b := by
  simp [outputsOf, List.filterMap_append]
@[simp] theorem outputsOf_exec (cmd : ExecCmd) (n : Int) (l : List Event) :
    outputsOf (Event.exec cmd n :: l) = outputsOf l := by
  simp [outputsOf, List.filterMap_cons]
@[simp] theorem outputsOf_console (x : List String) (l : List Event) :
    outputsOf (Event.console x :: l) = outputsOf l := by
  simp [outputsOf, List.filterMap_cons]
@[simp] theorem outputsOf_output (m : String) (l : List Event) :
    outputsOf (Event.output m :: l) = m :: outputsOf l := by
  simp [outputsOf, List.filterMap_cons]
@[simp] theorem outputsOf_error (m : String) (l : List Event) :
    outputsOf (Event.error m :: l) = outputsOf l := by
  simp [outputsOf, List.filterMap_cons]

@[simp] theorem errorsOf_nil : errorsOf [] = [] := rfl
@[simp] theorem errorsOf_append (a b : List Event) :
    errorsOf (a ++ b) = errorsOf a ++ errorsOf b := by
  simp [errorsOf, List.filterMap_append]
@[simp] theorem errorsOf_exec (cmd : ExecCmd) (n : Int) (l : List Event) :
    errorsOf (Event.exec cmd n :: l) = errorsOf l := by
  simp [errorsOf, List.filterMap_cons]
@[simp] theorem errorsOf_console (x : List String) (l : List Event) :
    errorsOf (Event.console x :: l) = errorsOf l := by
  simp [errorsOf, List.filterMap_cons]
@[simp] theorem errorsOf_output (m : String) (l : List Event) :
    errorsOf (Event.output m :: l) = errorsOf l := by
  simp [errorsOf, List.filterMap_cons]
@[simp] theorem errorsOf_error (m : String) (l : List Event) :
    errorsOf (Event.error m :: l) = m :: errorsOf l := by
  simp [errorsOf, List.filterMap_cons]

/-! ## Facts about trimming and splitting -/

theorem isSpace_comma : isSpace ',' = false := by decide

theorem trimChars_eq_nil_iff (l : List Char) :
    trimChars l = [] ↔ ∀ ch ∈ l, isSpace ch = true := by
  unfold trimChars
  constructor
  · intro h
    rw [List.reverse_eq_nil_iff, List.dropWhile_eq_nil_iff] at h
    by_contra hne
    push_neg at hne
    obtain ⟨ch, hch, hsp⟩ := hne
    have hd : l.dropWhile isSpace ≠ [] := by
      intro hnil
      rw [List.dropWhile_eq_nil_iff] at hnil
      exact hsp (hnil ch hch)
    have hh := List.head_dropWhile_not isSpace l hd
    have hmem : (l.dropWhile isSpace).head hd ∈ (l.dropWhile isSpace).reverse :=
      List.mem_reverse.mpr (List.head_mem hd)
    have := h _ hmem
    simp [this] at hh
  · intro h
    have : l.dropWhile isSpace = [] := List.dropWhile_eq_nil_iff.mpr h
    simp [this]

theorem trimSpace_length_zero_iff (s : String) :
    (TrimSpace s).length = 0 ↔ isBlank s := by
  unfold TrimSpace isBlank
  rw [String.length, List.length_eq_zero]
  exact trimChars_eq_nil_iff s.data

theorem count_dropWhile_of_not (p : Char → Bool) (sep : Char) (hp : p sep = false)
    (l : List Char) : (l.dropWhile p).count sep = l.count sep := by
  induction l with
  | nil => rfl
  | cons a t ih =>
    by_cases ha : p a = true
    · have hne : a ≠ sep := by
        intro h; rw [h, hp] at ha; exact Bool.false_ne_true ha
      rw [List.dropWhile_cons_of_pos ha, ih, List.count_cons_of_ne (Ne.symm hne)]
    · rw [List.dropWhile_cons_of_neg ha]

theorem count_trimChars_comma (l : List Char) :
    (trimChars l).count ',' = l.count ',' := by
  unfold trimChars
  rw [List.count_reverse, count_dropWhile_of_not isSpace ',' isSpace_comma,
    List.count_reverse, count_dropWhile_of_not isSpace ',' isSpace_comma]

theorem splitChars_ne_nil (sep : Char) (l : List Char) : splitChars sep l ≠ [] := by
  cases l with
  | nil => simp [splitChars]
  | cons c cs =>
    unfold splitChars
    split_ifs
    · simp
    · split <;> simp

theorem length_splitChars (sep : Char) (l : List Char) :
    (splitChars sep l).length = l.count sep + 1 := by
  induction l with
  | nil => simp [splitChars]
  | cons c cs ih =>
    unfold splitChars
    by_cases h : c = sep
    · subst h
      simp [ih]
    · rw [if_neg h]
      have hc : (c :: cs).count sep = cs.count sep := List.count_cons_of_ne (Ne.symm h) cs
      rw [hc, ← ih]
      split
      · rename_i heq
        exact absurd heq (splitChars_ne_nil sep cs)
      · rename_i p ps heq
        simp [heq]

theorem length_Split (s : String) (sep : Char) :
    (Split s sep).length = s.data.count sep + 1 := by
  simp [Split, length_splitChars]

theorem length_Split_TrimSpace (s : String) :
    (Split (TrimSpace s) ',').length = (Split s ',').length := by
  rw [length_Split, length_Split]
  simp [TrimSpace, count_trimChars_comma]

/-! ## Facts about `execute` and the steps -/

theorem execute_false (env : Env) (cmd : ExecCmd) (s : Sys) :
    execute env cmd s false =
      ((env (execsOf s.log) cmd).status,
        { c := s.c
          log := s.log ++ [Event.exec cmd s.c.server_count,
            Event.console (env (execsOf s.log) cmd).stdout] }) := by
  simp [execute]

theorem execute_Cmd (env : Env) (cmd : ExecCmd) (s : Sys) (b : Bool) :
    (execute env cmd s b).2.c.Cmd = s.c.Cmd := by
  unfold execute
  dsimp only
  split <;> rfl

theorem bootTheInstall_Cmd (k : Consts) (env : Env) (s : Sys) :
    (bootTheInstall k env s).2.c.Cmd = some (removeCmd k) := by
  unfold bootTheInstall
  dsimp only
  split_ifs <;> simp [uiError, execute_Cmd, setCmd]

theorem verifyBootstrap_Cmd (k : Consts) (env : Env) (s : Sys) :
    (verifyBootstrap k env s).2.c.Cmd = some (verifyCmd k) := by
  unfold verifyBootstrap
  dsimp only
  split_ifs <;> simp [uiError, execute_Cmd, setCmd]

theorem installConsul_Cmd (k : Consts) (env : Env) (s : Sys) :
    (installConsul k env s).2.c.Cmd = some (installCmd k) := by
  unfold installConsul
  dsimp only
  split_ifs <;> simp [uiError, execute_Cmd, setCmd]

theorem setConsulAsServer_Cmd (k : Consts) (env : Env) (s : Sys) :
    (setConsulAsServer k env s).2.c.Cmd = some (setRoleCmd k) := by
  unfold setConsulAsServer
  dsimp only
  split_ifs <;> simp [uiError, execute_Cmd, setCmd]

theorem startConsul_Cmd (k : Consts) (env : Env) (s : Sys) :
    (startConsul k env s).2.c.Cmd = some (startCmd k) := by
  unfold startConsul
  dsimp only
  split_ifs <;> simp [uiError, execute_Cmd, setCmd]

theorem setIP_Cmd_ne_none (k : Consts) (env : Env) (s : Sys) (h : s.c.Cmd ≠ none) :
    (setIP k env s).2.c.Cmd ≠ none := by
  unfold setIP
  dsimp only
  split_ifs <;> simp [uiError, uiOutput, execute_Cmd, setCmd, h]

theorem Run_Cmd_ne_none (k : Consts) (env : Env) (parse : List String → FlagOutcome)
    (args : List String) (s : Sys)
    (he : (parse args).err = false) (ho : (parse args).oargs = [])
    (hc : s.c.Cmd = none) : (Run k env parse args s).2.c.Cmd ≠ none := by
  simp only [Run, he, ho, hc]
  simp only [List.length_nil, ne_eq, not_true_eq_false, if_false, Bool.false_eq_true]
  have h4 : ∀ t : Sys, (setServerCount (installConsul k env t).2).c.Cmd ≠ none := by
    intro t
    simp only [setServerCount, setServerCountC]
    split_ifs <;> simp [installConsul_Cmd]
  split_ifs
  all_goals first
    | (simp only [bootTheInstall_Cmd, verifyBootstrap_Cmd, installConsul_Cmd,
        setConsulAsServer_Cmd, startConsul_Cmd, ne_eq, reduceCtorEq, not_false_eq_true]; done)
    | exact setIP_Cmd_ne_none k env _ (h4 _)

/-! ## Derivation of the server count -/

/-- Claim C3: when `member_ips` is empty or consists only of white space,
`setServerCount` sets `server_count` to 1, whatever it held before, and
changes nothing else. -/
theorem setServerCount_blank (s : Sys) (h : isBlank s.c.member_ips) :
    (setServerCount s).c.server_count = 1 ∧
      (setServerCount s).c.member_ips = s.c.member_ips ∧
      (setServerCount s).c.self_ip = s.c.self_ip ∧
      (setServerCount s).c.Cmd = s.c.Cmd ∧
      (setServerCount s).log = s.log := by
  have h0 : (TrimSpace s.c.member_ips).length = 0 :=
    (trimSpace_length_zero_iff _).mpr h
  simp [setServerCount, setServerCountC, h0]

theorem setServerCount_blank_witness :
    isBlank (⟨⟨none, " \t\n ", 7, ""⟩, []⟩ : Sys).c.member_ips ∧
      (setServerCount ⟨⟨none, " \t\n ", 7, ""⟩, []⟩).c.server_count = 1 :=
  ⟨by decide, (setServerCount_blank ⟨⟨none, " \t\n ", 7, ""⟩, []⟩ (by decide)).1⟩

/-- Claim C2, counterexample: the peer list `10.0.0.2,,10.0.0.3` is non-empty
and has two non-empty entries, yet `server_count` becomes 4, not 3; with a
trailing comma, `10.0.0.2,` has one non-empty entry and `server_count`
becomes 3, not 2; and the non-empty peer list made of one space has one
non-empty entry and `server_count` becomes 1, not 2. -/
theorem setServerCount_empty_entries_counted :
    ("10.0.0.2,,10.0.0.3" ≠ "" ∧ specNonEmptyEntries "10.0.0.2,,10.0.0.3" = 2 ∧
      (setServerCount ⟨⟨none, "10.0.0.2,,10.0.0.3", 0, ""⟩, []⟩).c.server_count = 4) ∧
    ("10.0.0.2," ≠ "" ∧ specNonEmptyEntries "10.0.0.2," = 1 ∧
      (setServerCount ⟨⟨none, "10.0.0.2,", 0, ""⟩, []⟩).c.server_count = 3) ∧
    (" " ≠ "" ∧ specNonEmptyEntries " " = 1 ∧
      (setServerCount ⟨⟨none, " ", 0, ""⟩, []⟩).c.server_count = 1) := by
  decide

/-- Claim C2, amended: when `member_ips` is not blank, `setServerCount` sets
`server_count` to the number of comma-separated entries of `member_ips`,
empty entries included, plus one (that is, the number of commas plus two);
when none of the entries is empty this is the number `n` of non-empty
entries plus one. -/
theorem setServerCount_entries (s : Sys) (h : ¬ isBlank s.c.member_ips) :
    (setServerCount s).c.server_count = ((Split s.c.member_ips ',').length : Int) + 1 ∧
      (setServerCount s).c.server_count = (s.c.member_ips.data.count ',' : Int) + 2 ∧
      ((∀ e ∈ Split s.c.member_ips ',', e ≠ "") →
        (setServerCount s).c.server_count = (specNonEmptyEntries s.c.member_ips : Int) + 1) := by
  have h0 : ¬ (TrimSpace s.c.member_ips).length = 0 := fun h1 =>
    h ((trimSpace_length_zero_iff _).mp h1)
  have h1 : (setServerCount s).c.server_count =
      ((Split s.c.member_ips ',').length : Int) + 1 := by
    simp [setServerCount, setServerCountC, h0, length_Split_TrimSpace]
  refine ⟨h1, ?_, ?_⟩
  · rw [h1, length_Split]; push_cast; ring
  · intro hall
    rw [h1, specNonEmptyEntries, List.filter_eq_self.mpr]
    intro e he
    simpa using hall e he

theorem setServerCount_entries_witness :
    ¬ isBlank (⟨⟨none, "10.0.0.2,10.0.0.3", 0, ""⟩, []⟩ : Sys).c.member_ips ∧
      (setServerCount ⟨⟨none, "10.0.0.2,10.0.0.3", 0, ""⟩, []⟩).c.server_count =
        ((Split "10.0.0.2,10.0.0.3" ',').length : Int) + 1 ∧
      (setServerCount ⟨⟨none, "10.0.0.2,10.0.0.3", 0, ""⟩, []⟩).c.server_count = 3 :=
  ⟨by decide,
    (setServerCount_entries ⟨⟨none, "10.0.0.2,10.0.0.3", 0, ""⟩, []⟩ (by decide)).1,
    by decide⟩

/-! ## Resolution of the self IP -/

/-- Claim C6, counterexample: with `self_ip` set to a single space, `setIP`
does start the IP-discovery script; when that script prints `10.0.0.9` and
exits 3, `setIP` returns 3 and `self_ip` is overwritten. -/
theorem setIP_whitespace_runs_script :
    (" " : String) ≠ "" ∧
      execsOf (setIP sampleConsts envIPFails ⟨⟨none, "", 1, " "⟩, []⟩).2.log
        = [getIPCmd sampleConsts] ∧
      (setIP sampleConsts envIPFails ⟨⟨none, "", 1, " "⟩, []⟩).1 = 3 ∧
      (setIP sampleConsts envIPFails ⟨⟨none, "", 1, " "⟩, []⟩).2.c.self_ip = "10.0.0.9" := by
  decide

/-- Claim C6, amended: when `self_ip` holds at least one character that is not
white space, `setIP` starts no process, returns 0, leaves `self_ip` as it is,
and its only effect is one `Self IP: <self_ip>` line on the console. -/
theorem setIP_supplied (k : Consts) (env : Env) (s : Sys)
    (h : ∃ ch ∈ s.c.self_ip.data, isSpace ch = false) :
    (setIP k env s).1 = 0 ∧
      execsOf (setIP k env s).2.log = execsOf s.log ∧
      (setIP k env s).2.c = s.c ∧
      (setIP k env s).2.log = s.log ++ [Event.output ("Self IP: " ++ s.c.self_ip)] := by
  have h0 : ¬ (TrimSpace s.c.self_ip).length = 0 := by
    intro h1
    obtain ⟨ch, hch, hsp⟩ := h
    have := (trimSpace_length_zero_iff _).mp h1 ch hch
    rw [hsp] at this
    exact Bool.false_ne_true this
  simp [setIP, h0, uiOutput]

theorem setIP_supplied_witness :
    (∃ ch ∈ (⟨⟨none, "", 1, "10.0.0.1"⟩, []⟩ : Sys).c.self_ip.data, isSpace ch = false) ∧
      (setIP sampleConsts envIPFails ⟨⟨none, "", 1, "10.0.0.1"⟩, []⟩).1 = 0 ∧
      (setIP sampleConsts envIPFails ⟨⟨none, "", 1, "10.0.0.1"⟩, []⟩).2.log
        = [Event.output "Self IP: 10.0.0.1"] :=
  ⟨by decide,
    (setIP_supplied sampleConsts envIPFails ⟨⟨none, "", 1, "10.0.0.1"⟩, []⟩ (by decide)).1,
    (setIP_supplied sampleConsts envIPFails ⟨⟨none, "", 1, "10.0.0.1"⟩, []⟩ (by decide)).2.2.2⟩

/-! ## The bootstrap step -/

/-- Claim C5: when the fetch exits 0, `bootTheInstall` starts exactly the
fetch, the fetched script and the removal, in this order, and returns the exit
status of the script; a world that differs only in what the removal does gives
the same result; and a run whose script fails returns the script's status. -/
theorem bootTheInstall_fetched (k : Consts) (env : Env) (s : Sys)
    (hfetch : (env (execsOf s.log) (fetchCmd k)).status = 0) :
    (bootTheInstall k env s).1 = (env (execsOf s.log ++ [fetchCmd k]) (bootCmd k)).status ∧
      execsOf (bootTheInstall k env s).2.log
        = execsOf s.log ++ [fetchCmd k, bootCmd k, removeCmd k] ∧
      (∀ env2 : Env, (∀ h cmd, cmd ≠ removeCmd k → env2 h cmd = env h cmd) →
        (bootTheInstall k env2 s).1 = (bootTheInstall k env s).1) ∧
      (∀ (parse : List String → FlagOutcome) (args : List String),
        (parse args).err = false → (parse args).oargs = [] → s.c.Cmd = none →
        (env (execsOf s.log ++ [fetchCmd k]) (bootCmd k)).status ≠ 0 →
        (Run k env parse args s).1
          = (env (execsOf s.log ++ [fetchCmd k]) (bootCmd k)).status) := by
  have hfr : fetchCmd k ≠ removeCmd k := by simp [fetchCmd, removeCmd, Command]
  have hbr : bootCmd k ≠ removeCmd k := by simp [bootCmd, removeCmd, Command]
  refine ⟨?_, ?_, ?_, ?_⟩
  · simp only [bootTheInstall, execute_false, setCmd, hfetch]
    simp
    split_ifs <;> simp
  · simp only [bootTheInstall, execute_false, setCmd, hfetch]
    simp
    split_ifs <;> simp [uiError]
  · intro env2 h2
    have e1 := h2 (execsOf s.log) (fetchCmd k) hfr
    have e2 := h2 (execsOf s.log ++ [fetchCmd k]) (bootCmd k) hbr
    simp only [bootTheInstall, execute_false, setCmd, hfetch, e1]
    simp
    rw [e2]
    split_ifs <;> simp
  · intro parse args he ho hc hb
    simp only [Run, he, ho, hc, bootTheInstall, execute_false, setCmd, hfetch]
    simp [hb]

theorem bootTheInstall_fetched_witness :
    (envBootFails (execsOf freshSys.log) (fetchCmd sampleConsts)).status = 0 ∧
      (bootTheInstall sampleConsts envBootFails freshSys).1 = 5 ∧
      execsOf (bootTheInstall sampleConsts envBootFails freshSys).2.log
        = [fetchCmd sampleConsts, bootCmd sampleConsts, removeCmd sampleConsts] :=
  ⟨by decide,
    (bootTheInstall_fetched sampleConsts envBootFails freshSys (by decide)).1.trans (by decide),
    (bootTheInstall_fetched sampleConsts envBootFails freshSys (by decide)).2.1⟩

/-! ## The run as a whole -/

/-- Claim C9: when flag parsing leaves a positional argument, `Run` returns 1,
starts no process (a preset `Cmd` included) and leaves `server_count` as it
was. -/
theorem Run_positional (k : Consts) (env : Env) (parse : List String → FlagOutcome)
    (args : List String) (s : Sys) (h : (parse args).oargs ≠ []) :
    (Run k env parse args s).1 = 1 ∧
      execsOf (Run k env parse args s).2.log = execsOf s.log ∧
      (Run k env parse args s).2.c.server_count = s.c.server_count ∧
      (Run k env parse args s).2.c.Cmd = s.c.Cmd := by
  have hl : ¬ (parse args).oargs.length = 0 := by
    rw [List.length_eq_zero]; exact h
  unfold Run
  by_cases he : (parse args).err = true
  · simp [he, uiOutput]
  · simp [he, hl, uiError]

theorem Run_positional_witness :
    (parseExtra ["extra"]).oargs ≠ [] ∧
      (Run sampleConsts envAllOk parseExtra ["extra"]
        ⟨⟨some (Command "true" []), "", 0, ""⟩, []⟩).1 = 1 ∧
      execsOf (Run sampleConsts envAllOk parseExtra ["extra"]
        ⟨⟨some (Command "true" []), "", 0, ""⟩, []⟩).2.log = [] :=
  ⟨by decide,
    (Run_positional sampleConsts envAllOk parseExtra ["extra"]
      ⟨⟨some (Command "true" []), "", 0, ""⟩, []⟩ (by decide)).1,
    (Run_positional sampleConsts envAllOk parseExtra ["extra"]
      ⟨⟨some (Command "true" []), "", 0, ""⟩, []⟩ (by decide)).2.1⟩

/-- Claim C10: with flags parsed without error and no positional argument, a
`Run` entered with a preset `Cmd` starts exactly that command, returns its
exit status, and performs none of the install steps: nothing is printed,
`server_count` keeps its value, `self_ip` keeps the value flag parsing gave it
and `Cmd` stays the preset command.  A `Run` entered without a preset `Cmd`
leaves `Cmd` set. -/
theorem Run_preset_cmd (k : Consts) (env : Env) (parse : List String → FlagOutcome)
    (args : List String) (s : Sys)
    (he : (parse args).err = false) (ho : (parse args).oargs = []) :
    (∀ cmd, s.c.Cmd = some cmd →
      (Run k env parse args s).1 = (env (execsOf s.log) cmd).status ∧
      execsOf (Run k env parse args s).2.log = execsOf s.log ++ [cmd] ∧
      outputsOf (Run k env parse args s).2.log = outputsOf s.log ∧
      errorsOf (Run k env parse args s).2.log = errorsOf s.log ∧
      (Run k env parse args s).2.c.server_count = s.c.server_count ∧
      (Run k env parse args s).2.c.self_ip = (parse args).self_ip ∧
      (Run k env parse args s).2.c.Cmd = some cmd) ∧
    (s.c.Cmd = none → (Run k env parse args s).2.c.Cmd ≠ none) := by
  constructor
  · intro cmd hc
    simp [Run, he, ho, hc, execute_false]
  · intro hc
    exact Run_Cmd_ne_none k env parse args s he ho hc

theorem Run_preset_cmd_witness :
    (parseNone []).err = false ∧ (parseNone []).oargs = [] ∧
      (Run sampleConsts envStartFails parseNone []
        ⟨⟨some (startCmd sampleConsts), "", 0, ""⟩, []⟩).1 = 1 ∧
      execsOf (Run sampleConsts envStartFails parseNone []
        ⟨⟨some (startCmd sampleConsts), "", 0, ""⟩, []⟩).2.log = [startCmd sampleConsts] :=
  ⟨by decide, by decide,
    ((Run_preset_cmd sampleConsts envStartFails parseNone []
      ⟨⟨some (startCmd sampleConsts), "", 0, ""⟩, []⟩ (by decide) (by decide)).1
        (startCmd sampleConsts) rfl).1.trans (by decide),
    ((Run_preset_cmd sampleConsts envStartFails parseNone []
      ⟨⟨some (startCmd sampleConsts), "", 0, ""⟩, []⟩ (by decide) (by decide)).1
        (startCmd sampleConsts) rfl).2.1⟩

/-- Claim C4: with flags parsed without error, no positional argument and no
preset `Cmd`, when the fetch exits with a non-zero status `r`, `Run` returns
`r`, the only processes it starts are the fetch and then the removal of the
bootstrap script, the only message is the fetch error, `server_count` keeps
its value and `self_ip` keeps the value flag parsing gave it. -/
theorem Run_fetch_fails (k : Consts) (env : Env) (parse : List String → FlagOutcome)
    (args : List String) (s : Sys) (r : Int)
    (he : (parse args).err = false) (ho : (parse args).oargs = [])
    (hc : s.c.Cmd = none)
    (hr : (env (execsOf s.log) (fetchCmd k)).status = r) (hr0 : r ≠ 0) :
    (Run k env parse args s).1 = r ∧
      execsOf (Run k env parse args s).2.log
        = execsOf s.log ++ [fetchCmd k, removeCmd k] ∧
      errorsOf (Run k env parse args s).2.log
        = errorsOf s.log ++ ["Failed to fetch file: " ++ k.BootstrapScriptPath] ∧
      outputsOf (Run k env parse args s).2.log = outputsOf s.log ∧
      (Run k env parse args s).2.c.server_count = s.c.server_count ∧
      (Run k env parse args s).2.c.self_ip = (parse args).self_ip := by
  subst hr
  simp only [Run, he, ho, hc, bootTheInstall, execute_false, setCmd, uiError]
  simp [hr0]

theorem Run_fetch_fails_witness :
    (parseNone []).err = false ∧ (parseNone []).oargs = [] ∧ freshSys.c.Cmd = none ∧
      (envFetchFails (execsOf freshSys.log) (fetchCmd sampleConsts)).status = 22 ∧
      (22 : Int) ≠ 0 ∧
      (Run sampleConsts envFetchFails parseNone [] freshSys).1 = 22 ∧
      execsOf (Run sampleConsts envFetchFails parseNone [] freshSys).2.log
        = [fetchCmd sampleConsts, removeCmd sampleConsts] :=
  ⟨by decide, by decide, by decide, by decide, by decide,
    (Run_fetch_fails sampleConsts envFetchFails parseNone [] freshSys 22
      (by decide) (by decide) (by decide) (by decide) (by decide)).1,
    (Run_fetch_fails sampleConsts envFetchFails parseNone [] freshSys 22
      (by decide) (by decide) (by decide) (by decide) (by decide)).2.1⟩

theorem setServerCountC_eq (c : InstallMayaCommand) :
    setServerCountC c = { c with server_count := derivedCount c.member_ips } := by
  simp only [setServerCountC, derivedCount]
  split_ifs <;> rfl

@[simp] theorem execsOf_ran (env : Env) (log : List Event) (cmd : ExecCmd) (n : Int) :
    execsOf (ran env log cmd n) = [cmd] := by simp [ran]
@[simp] theorem startsOf_ran (env : Env) (log : List Event) (cmd : ExecCmd) (n : Int) :
    startsOf (ran env log cmd n) = [(cmd, n)] := by simp [ran]
@[simp] theorem outputsOf_ran (env : Env) (log : List Event) (cmd : ExecCmd) (n : Int) :
    outputsOf (ran env log cmd n) = [] := by simp [ran]
@[simp] theorem errorsOf_ran (env : Env) (log : List Event) (cmd : ExecCmd) (n : Int) :
    errorsOf (ran env log cmd n) = [] := by simp [ran]

theorem consoleOf_append (a b : List Event) :
    consoleOf (a ++ b) = consoleOf a ++ consoleOf b := by
  induction a with
  | nil => rfl
  | cons e t ih => cases e <;> simp [consoleOf, ih]

theorem consoleOf_ran (env : Env) (log : List Event) (cmd : ExecCmd) (n : Int) :
    consoleOf (ran env log cmd n) = (env (execsOf log) cmd).stdout := by
  simp [ran, consoleOf]

theorem execute_false_ran (env : Env) (cmd : ExecCmd) (s : Sys) :
    execute env cmd s false =
      ((env (execsOf s.log) cmd).status,
        { c := s.c, log := s.log ++ ran env s.log cmd s.c.server_count }) := by
  simp [execute, ran]

theorem execute_true_ran (env : Env) (cmd : ExecCmd) (s : Sys) :
    execute env cmd s true =
      ((env (execsOf s.log) cmd).status,
        { c := { s.c with
                  self_ip := captured s.c.self_ip (env (execsOf s.log) cmd).stdout }
          log := s.log ++ ran env s.log cmd s.c.server_count }) := by
  unfold execute captured ran
  dsimp only
  generalize (env (execsOf s.log) cmd).stdout = o
  cases o <;> rfl

theorem bootTheInstall_ok (k : Consts) (env : Env) (s : Sys)
    (hok : OnlyRemovalMayFail env) :
    bootTheInstall k env s =
      (0, { c := { s.c with Cmd := some (removeCmd k) }
            log := s.log ++ ran env s.log (fetchCmd k) s.c.server_count
              ++ ran env (s.log ++ ran env s.log (fetchCmd k) s.c.server_count)
                  (bootCmd k) s.c.server_count
              ++ ran env (s.log ++ ran env s.log (fetchCmd k) s.c.server_count
                  ++ ran env (s.log ++ ran env s.log (fetchCmd k) s.c.server_count)
                      (bootCmd k) s.c.server_count)
                  (removeCmd k) s.c.server_count }) := by
  have h1 : ∀ h, (env h (fetchCmd k)).status = 0 := fun h =>
    hok h _ (by simp [fetchCmd, Command])
  have h2 : ∀ h, (env h (bootCmd k)).status = 0 := fun h =>
    hok h _ (by simp [bootCmd, Command])
  simp [bootTheInstall, execute_false_ran, setCmd, h1, h2]

theorem verifyBootstrap_ok (k : Consts) (env : Env) (s : Sys)
    (hok : OnlyRemovalMayFail env) :
    verifyBootstrap k env s =
      (0, { c := { s.c with Cmd := some (verifyCmd k) }
            log := s.log ++ ran env s.log (verifyCmd k) s.c.server_count }) := by
  have h1 : ∀ h, (env h (verifyCmd k)).status = 0 := fun h =>
    hok h _ (by simp [verifyCmd, Command])
  simp [verifyBootstrap, execute_false_ran, setCmd, h1]

theorem installConsul_ok (k : Consts) (env : Env) (s : Sys)
    (hok : OnlyRemovalMayFail env) :
    installConsul k env s =
      (0, { c := { s.c with Cmd := some (installCmd k) }
            log := s.log ++ ran env s.log (installCmd k) s.c.server_count }) := by
  have h1 : ∀ h, (env h (installCmd k)).status = 0 := fun h =>
    hok h _ (by simp [installCmd, Command])
  simp [installConsul, execute_false_ran, setCmd, h1]

theorem setConsulAsServer_ok (k : Consts) (env : Env) (s : Sys)
    (hok : OnlyRemovalMayFail env) :
    setConsulAsServer k env s =
      (0, { c := { s.c with Cmd := some (setRoleCmd k) }
            log := s.log ++ ran env s.log (setRoleCmd k) s.c.server_count }) := by
  have h1 : ∀ h, (env h (setRoleCmd k)).status = 0 := fun h =>
    hok h _ (by simp [setRoleCmd, Command])
  simp [setConsulAsServer, execute_false_ran, setCmd, h1]

theorem startConsul_zero (k : Consts) (env : Env) (s : Sys) :
    (startConsul k env s).1 = 0 := by
  unfold startConsul
  dsimp only
  split_ifs <;> rfl

theorem startConsul_ok (k : Consts) (env : Env) (s : Sys)
    (hok : OnlyRemovalMayFail env) :
    startConsul k env s =
      (0, { c := { s.c with Cmd := some (startCmd k) }
            log := s.log ++ ran env s.log (startCmd k) s.c.server_count }) := by
  have h1 : ∀ h, (env h (startCmd k)).status = 0 := fun h =>
    hok h _ (by simp [startCmd, Command])
  simp [startConsul, execute_false_ran, setCmd, h1]

theorem setIP_blank_ok (k : Consts) (env : Env) (s : Sys)
    (hok : OnlyRemovalMayFail env) (hb : isBlank s.c.self_ip) :
    setIP k env s =
      (0, { c := { s.c with
                    Cmd := some (getIPCmd k)
                    self_ip := captured s.c.self_ip
                      (env (execsOf s.log) (getIPCmd k)).stdout }
            log := s.log ++ ran env s.log (getIPCmd k) s.c.server_count
              ++ [Event.output ("Self IP: " ++ captured s.c.self_ip
                    (env (execsOf s.log) (getIPCmd k)).stdout)] }) := by
  have h1 : ∀ h, (env h (getIPCmd k)).status = 0 := fun h =>
    hok h _ (by simp [getIPCmd, Command])
  have hb0 : (TrimSpace s.c.self_ip).length = 0 := (trimSpace_length_zero_iff _).mpr hb
  simp [setIP, execute_true_ran, setCmd, uiOutput, h1, hb0]

theorem setIP_not_blank (k : Consts) (env : Env) (s : Sys) (hb : ¬ isBlank s.c.self_ip) :
    setIP k env s =
      (0, { c := s.c, log := s.log ++ [Event.output ("Self IP: " ++ s.c.self_ip)] }) := by
  have hb0 : ¬ (TrimSpace s.c.self_ip).length = 0 := fun h =>
    hb ((trimSpace_length_zero_iff _).mp h)
  simp [setIP, uiOutput, hb0]

theorem envIPPrints_ok : OnlyRemovalMayFail envIPPrints := by
  intro h cmd hn
  unfold envIPPrints
  split_ifs with h1 h2
  · rfl
  · exact absurd (by rw [h2]; rfl) hn
  · rfl

/-- Everything a run does when no process other than the removal of the
bootstrap script fails. -/
theorem Run_ok_facts (k : Consts) (env : Env) (parse : List String → FlagOutcome)
    (args : List String) (s : Sys)
    (he : (parse args).err = false) (ho : (parse args).oargs = [])
    (hc : s.c.Cmd = none) (hok : OnlyRemovalMayFail env) :
    (Run k env parse args s).1 = 0 ∧
    startsOf (Run k env parse args s).2.log
      = startsOf s.log ++
        [(fetchCmd k, s.c.server_count), (bootCmd k, s.c.server_count),
          (removeCmd k, s.c.server_count), (verifyCmd k, s.c.server_count),
          (installCmd k, s.c.server_count)] ++
        (if isBlank (parse args).self_ip
          then [(getIPCmd k, derivedCount (parse args).member_ips)] else []) ++
        [(setRoleCmd k, derivedCount (parse args).member_ips),
          (startCmd k, derivedCount (parse args).member_ips)] ∧
    outputsOf (Run k env parse args s).2.log
      = outputsOf s.log ++ ["Self IP: " ++ (Run k env parse args s).2.c.self_ip] ∧
    errorsOf (Run k env parse args s).2.log = errorsOf s.log ∧
    (Run k env parse args s).2.c.self_ip
      = (if isBlank (parse args).self_ip
          then captured (parse args).self_ip
            (env (execsOf s.log ++ [fetchCmd k, bootCmd k, removeCmd k, verifyCmd k,
              installCmd k]) (getIPCmd k)).stdout
          else (parse args).self_ip) ∧
    (Run k env parse args s).2.c.server_count = derivedCount (parse args).member_ips ∧
    consoleOf (Run k env parse args s).2.log
      = consoleOf s.log ++
        streamed env (execsOf s.log)
          ([fetchCmd k, bootCmd k, removeCmd k, verifyCmd k, installCmd k] ++
            (if isBlank (parse args).self_ip then [getIPCmd k] else [])) ++
        ["Self IP: " ++ (Run k env parse args s).2.c.self_ip] ++
        streamed env
          (execsOf s.log ++ [fetchCmd k, bootCmd k, removeCmd k, verifyCmd k, installCmd k] ++
            (if isBlank (parse args).self_ip then [getIPCmd k] else []))
          [setRoleCmd k, startCmd k] := by
  by_cases hb : isBlank (parse args).self_ip
  · simp only [Run, he, ho, hc, bootTheInstall_ok k env _ hok, verifyBootstrap_ok k env _ hok,
      installConsul_ok k env _ hok, setServerCount, setServerCountC_eq,
      setConsulAsServer_ok k env _ hok, startConsul_ok k env _ hok]
    rw [setIP_blank_ok k env _ hok hb]
    simp [hb, consoleOf_append, consoleOf_ran, consoleOf, streamed]
  · simp only [Run, he, ho, hc, bootTheInstall_ok k env _ hok, verifyBootstrap_ok k env _ hok,
      installConsul_ok k env _ hok, setServerCount, setServerCountC_eq,
      setConsulAsServer_ok k env _ hok, startConsul_ok k env _ hok]
    rw [setIP_not_blank k env _ hb]
    simp [hb, consoleOf_append, consoleOf_ran, consoleOf, streamed]

/-- Claim C7, counterexample: with `-self-ip` supplied as a single space and
every process exiting 0, the IP-discovery script is started although `self_ip`
was set. -/
theorem Run_whitespace_self_ip_runs_discovery :
    (parseBlankSelf ["-self-ip= "]).self_ip ≠ "" ∧
      execsOf (Run sampleConsts envAllOk parseBlankSelf ["-self-ip= "] freshSys).2.log
        = [fetchCmd sampleConsts, bootCmd sampleConsts, removeCmd sampleConsts,
            verifyCmd sampleConsts, installCmd sampleConsts, getIPCmd sampleConsts,
            setRoleCmd sampleConsts, startCmd sampleConsts] := by
  decide

/-- Claim C7, amended: with flags parsed without error, no positional argument
and no preset `Cmd`, when every process (the removal apart) exits 0, the
processes `Run` starts are exactly: the fetch, the fetched script, its
removal, the listing of the scripts path, the installer, the IP-discovery
script if and only if `self_ip` is empty or only white space, the
set-server-role script, the start script.  The first five are started while
`server_count` still has its old value, the others after it was derived. -/
theorem Run_all_ok_sequence (k : Consts) (env : Env) (parse : List String → FlagOutcome)
    (args : List String) (s : Sys)
    (he : (parse args).err = false) (ho : (parse args).oargs = [])
    (hc : s.c.Cmd = none) (hok : OnlyRemovalMayFail env) :
    startsOf (Run k env parse args s).2.log
      = startsOf s.log ++
        [(fetchCmd k, s.c.server_count), (bootCmd k, s.c.server_count),
          (removeCmd k, s.c.server_count), (verifyCmd k, s.c.server_count),
          (installCmd k, s.c.server_count)] ++
        (if isBlank (parse args).self_ip
          then [(getIPCmd k, derivedCount (parse args).member_ips)] else []) ++
        [(setRoleCmd k, derivedCount (parse args).member_ips),
          (startCmd k, derivedCount (parse args).member_ips)] :=
  (Run_ok_facts k env parse args s he ho hc hok).2.1

theorem Run_all_ok_sequence_witness :
    (parseMembers []).err = false ∧ (parseMembers []).oargs = [] ∧
      freshSys.c.Cmd = none ∧ OnlyRemovalMayFail envIPPrints ∧
      startsOf (Run sampleConsts envIPPrints parseMembers [] freshSys).2.log
        = [(fetchCmd sampleConsts, 0), (bootCmd sampleConsts, 0),
            (removeCmd sampleConsts, 0), (verifyCmd sampleConsts, 0),
            (installCmd sampleConsts, 0), (getIPCmd sampleConsts, 3),
            (setRoleCmd sampleConsts, 3), (startCmd sampleConsts, 3)] :=
  ⟨by decide, by decide, by decide, envIPPrints_ok,
    (Run_all_ok_sequence sampleConsts envIPPrints parseMembers [] freshSys
      (by decide) (by decide) (by decide) envIPPrints_ok).trans (by decide)⟩

/-- Claim C8, counterexample: in a world where every process exits 0 and the
set-server-role script prints `Self IP: 10.0.0.9` itself, `Run` returns 0 and
the console receives the line `Self IP: 10.0.0.9` twice, when the address was
captured from the IP-discovery script and when it was supplied; and when only
the IP-discovery script prints, the console still receives the address on two
lines, the script's own output and the `Self IP:` line. -/
theorem Run_console_repeats_self_ip :
    (∀ h cmd, (envEcho h cmd).status = 0) ∧
      ((Run sampleConsts envEcho parseNone [] freshSys).1 = 0 ∧
        (Run sampleConsts envEcho parseNone [] freshSys).2.c.self_ip = "10.0.0.9" ∧
        consoleOf (Run sampleConsts envEcho parseNone [] freshSys).2.log
          = ["10.0.0.9", "Self IP: 10.0.0.9", "Self IP: 10.0.0.9"] ∧
        (consoleOf (Run sampleConsts envEcho parseNone [] freshSys).2.log).count
          "Self IP: 10.0.0.9" = 2) ∧
      ((Run sampleConsts envEcho parseSelf ["-self-ip=10.0.0.9"] freshSys).1 = 0 ∧
        (Run sampleConsts envEcho parseSelf ["-self-ip=10.0.0.9"] freshSys).2.c.self_ip
          = "10.0.0.9" ∧
        consoleOf (Run sampleConsts envEcho parseSelf ["-self-ip=10.0.0.9"] freshSys).2.log
          = ["Self IP: 10.0.0.9", "Self IP: 10.0.0.9"]) ∧
      ((Run sampleConsts envIPPrints parseNone [] freshSys).1 = 0 ∧
        consoleOf (Run sampleConsts envIPPrints parseNone [] freshSys).2.log
          = ["10.0.0.9", "Self IP: 10.0.0.9"]) := by
  refine ⟨?_, by decide, by decide, by decide⟩
  intro h cmd
  unfold envEcho
  split_ifs <;> rfl

/-- Claim C8, amended: with flags parsed without error, no positional argument
and no preset `Cmd`, when every process of the six executable steps exits 0
(the removal of the bootstrap script may fail), `Run` returns 0, prints no
error, and writes the resolved address itself exactly once: its only
`Ui.Output` is one line `Self IP: <self_ip>` with the final `self_ip`, the
supplied value when one was supplied, the line captured from the IP-discovery
script otherwise.  Everything else the console receives is the output of the
processes, streamed in the order they run, with that line after the output of
the IP-discovery step and before that of the set-server-role script; so the
console as a whole receives the line exactly once when no process prints it. -/
theorem Run_all_ok_reports_self_ip (k : Consts) (env : Env)
    (parse : List String → FlagOutcome) (args : List String) (s : Sys)
    (he : (parse args).err = false) (ho : (parse args).oargs = [])
    (hc : s.c.Cmd = none) (hok : OnlyRemovalMayFail env) :
    (Run k env parse args s).1 = 0 ∧
      outputsOf (Run k env parse args s).2.log
        = outputsOf s.log ++ ["Self IP: " ++ (Run k env parse args s).2.c.self_ip] ∧
      errorsOf (Run k env parse args s).2.log = errorsOf s.log ∧
      (Run k env parse args s).2.c.self_ip
        = (if isBlank (parse args).self_ip
            then captured (parse args).self_ip
              (env (execsOf s.log ++ [fetchCmd k, bootCmd k, removeCmd k, verifyCmd k,
                installCmd k]) (getIPCmd k)).stdout
            else (parse args).self_ip) ∧
      consoleOf (Run k env parse args s).2.log
        = consoleOf s.log ++
          streamed env (execsOf s.log)
            ([fetchCmd k, bootCmd k, removeCmd k, verifyCmd k, installCmd k] ++
              (if isBlank (parse args).self_ip then [getIPCmd k] else [])) ++
          ["Self IP: " ++ (Run k env parse args s).2.c.self_ip] ++
          streamed env
            (execsOf s.log ++
              [fetchCmd k, bootCmd k, removeCmd k, verifyCmd k, installCmd k] ++
              (if isBlank (parse args).self_ip then [getIPCmd k] else []))
            [setRoleCmd k, startCmd k] ∧
      ("Self IP: " ++ (Run k env parse args s).2.c.self_ip ∉
          streamed env (execsOf s.log)
            ([fetchCmd k, bootCmd k, removeCmd k, verifyCmd k, installCmd k] ++
              (if isBlank (parse args).self_ip then [getIPCmd k] else [])) →
        "Self IP: " ++ (Run k env parse args s).2.c.self_ip ∉
          streamed env
            (execsOf s.log ++
              [fetchCmd k, bootCmd k, removeCmd k, verifyCmd k, installCmd k] ++
              (if isBlank (parse args).self_ip then [getIPCmd k] else []))
            [setRoleCmd k, startCmd k] →
        (consoleOf (Run k env parse args s).2.log).count
            ("Self IP: " ++ (Run k env parse args s).2.c.self_ip)
          = (consoleOf s.log).count
              ("Self IP: " ++ (Run k env parse args s).2.c.self_ip) + 1) := by
  have hf := Run_ok_facts k env parse args s he ho hc hok
  refine ⟨hf.1, hf.2.2.1, hf.2.2.2.1, hf.2.2.2.2.1, hf.2.2.2.2.2.2, ?_⟩
  intro h1 h2
  rw [hf.2.2.2.2.2.2, List.count_append, List.count_append, List.count_append,
    List.count_eq_zero_of_not_mem h1, List.count_eq_zero_of_not_mem h2]
  simp

theorem Run_all_ok_reports_self_ip_witness :
    (parseNone []).err = false ∧ (parseNone []).oargs = [] ∧
      freshSys.c.Cmd = none ∧ OnlyRemovalMayFail envIPPrints ∧
      (Run sampleConsts envIPPrints parseNone [] freshSys).1 = 0 ∧
      outputsOf (Run sampleConsts envIPPrints parseNone [] freshSys).2.log
        = ["Self IP: 10.0.0.9"] ∧
      (consoleOf (Run sampleConsts envIPPrints parseNone [] freshSys).2.log).count
          "Self IP: 10.0.0.9" = 1 :=
  ⟨by decide, by decide, by decide, envIPPrints_ok,
    (Run_all_ok_reports_self_ip sampleConsts envIPPrints parseNone [] freshSys
      (by decide) (by decide) (by decide) envIPPrints_ok).1,
    (Run_all_ok_reports_self_ip sampleConsts envIPPrints parseNone [] freshSys
      (by decide) (by decide) (by decide) envIPPrints_ok).2.1.trans (by decide),
    by decide⟩

/-- Claim C1, the code at the failing input: `startConsul` returns 0 whatever
its process does; in a run where only the start script fails (exit status 1)
all eight processes are started, the start error is printed, and `Run`
returns 0. -/
theorem Run_start_failure_returns_zero :
    (∀ (k : Consts) (env : Env) (s : Sys), (startConsul k env s).1 = 0) ∧
      (envStartFails
        [fetchCmd sampleConsts, bootCmd sampleConsts, removeCmd sampleConsts,
          verifyCmd sampleConsts, installCmd sampleConsts, getIPCmd sampleConsts,
          setRoleCmd sampleConsts] (startCmd sampleConsts)).status = 1 ∧
      execsOf (Run sampleConsts envStartFails parseNone [] freshSys).2.log
        = [fetchCmd sampleConsts, bootCmd sampleConsts, removeCmd sampleConsts,
            verifyCmd sampleConsts, installCmd sampleConsts, getIPCmd sampleConsts,
            setRoleCmd sampleConsts, startCmd sampleConsts] ∧
      errorsOf (Run sampleConsts envStartFails parseNone [] freshSys).2.log
        = ["Install failed: Systemd failed: Error starting consul"] ∧
      (Run sampleConsts envStartFails parseNone [] freshSys).1 = 0 :=
  ⟨startConsul_zero, by decide, by decide, by decide, by decide⟩

end Maya
